import Mathlib

/-!
Verification of `visionAPI.py`: a shallow embedding of the script's data
model, its six report formatters and its `annotate` driver, with theorems
settling the specification's claims.

Modelling conventions:
* a Python `print(s)` is one element of an output list of strings;
* service responses are records mirroring the protobuf fields the script
  reads; numeric scores are rationals; likelihood ordinals are naturals;
* a Python raise is a `some` value in the `raised` field carried beside the
  output produced before the raise (`ReportResult` / `RunResult`);
* the remote client is a record of six response functions, the filesystem a
  partial map from paths to byte lists; `annotate` yields the trace of
  remote calls and prints.
-/

namespace VisionAPI

/-- A vertex of a bounding polygon (integer pixel coordinates). -/
structure Vertex where
  x : Int
  y : Int
deriving Repr, DecidableEq

/-- A bounding polygon: the ordered vertices the script iterates over. -/
structure BoundingPoly where
  vertices : List Vertex
deriving Repr, DecidableEq

/-- The per-response error descriptor: the script reads only `.message`. -/
structure ErrorStatus where
  message : String
deriving Repr, DecidableEq

/-- One label record: `description` and confidence `score`. -/
structure Label where
  description : String
  score : Rat
deriving Repr, DecidableEq

/-- Response of `label_detection`: records plus the error field the script
never reads in `labels_report`. -/
structure LabelsResponse where
  label_annotations : List Label
  error : ErrorStatus
deriving Repr, DecidableEq

/-- A page with matching images (only `.url` is read). -/
structure WebPage where
  url : String
deriving Repr, DecidableEq

/-- A full or partially matching image (only `.url` is read). -/
structure WebImage where
  url : String
deriving Repr, DecidableEq

/-- A web entity: relevance `score` and `description`. -/
structure WebEntity where
  score : Rat
  description : String
deriving Repr, DecidableEq

/-- The `web_detection` field of a web-detection response. -/
structure WebDetection where
  pages_with_matching_images : List WebPage
  full_matching_images : List WebImage
  partial_matching_images : List WebImage
  web_entities : List WebEntity
deriving Repr, DecidableEq

/-- Response of `web_detection`; the script immediately projects out
`.web_detection`. -/
structure WebDetectionResponse where
  web_detection : WebDetection
deriving Repr, DecidableEq

/-- One face record: three likelihood ordinals and a bounding polygon.
The ordinals are open naturals, as a protobuf enum field can carry any
value the service sends, not only the six named ones. -/
structure Face where
  anger_likelihood : Nat
  joy_likelihood : Nat
  surprise_likelihood : Nat
  bounding_poly : BoundingPoly
deriving Repr, DecidableEq

/-- Response of `face_detection`. -/
structure FaceResponse where
  face_annotations : List Face
  error : ErrorStatus
deriving Repr, DecidableEq

/-- One logo record (only `.description` is read). -/
structure Logo where
  description : String
deriving Repr, DecidableEq

/-- Response of `logo_detection`. -/
structure LogoResponse where
  logo_annotations : List Logo
  error : ErrorStatus
deriving Repr, DecidableEq

/-- One text record: the detected string and its bounding polygon. -/
structure TextAnn where
  description : String
  bounding_poly : BoundingPoly
deriving Repr, DecidableEq

/-- Response of `text_detection`. -/
structure TextResponse where
  text_annotations : List TextAnn
  error : ErrorStatus
deriving Repr, DecidableEq

/-- A normalized vertex (fractional coordinates). -/
structure NormalizedVertex where
  x : Rat
  y : Rat
deriving Repr, DecidableEq

/-- A normalized bounding polygon. -/
structure NormalizedBoundingPoly where
  normalized_vertices : List NormalizedVertex
deriving Repr, DecidableEq

/-- One localized object record: name, confidence score, polygon. -/
structure ObjectAnn where
  name : String
  score : Rat
  bounding_poly : NormalizedBoundingPoly
deriving Repr, DecidableEq

/-- Response of `object_localization`; the script immediately projects out
`.localized_object_annotations`. -/
structure ObjectLocalizationResponse where
  localized_object_annotations : List ObjectAnn
deriving Repr, DecidableEq

/-- The ways the script can raise: a failed local file open (`io.open`),
a tuple index out of range (`likelihood_name[...]`), and the explicit
`raise Exception(...)` carrying a message. -/
inductive PyError where
  | ioError (path : String)
  | indexError
  | exception (message : String)
deriving Repr, DecidableEq

/-- What running one report function produces: the lines printed before any
raise, and the raise if one happened. -/
structure ReportResult where
  output : List String
  raised : Option PyError
deriving Repr, DecidableEq

/-- Sequential composition: run `a`; if it raised, `b` never runs. -/
def seqReports (a b : ReportResult) : ReportResult :=
  match a.raised with
  | some _ => a
  | none => { output := a.output ++ b.output, raised := b.raised }

/-- The separator the script prints under every section header:
`'=' * 79`. -/
def sepLine : String := String.mk (List.replicate 79 '=')

/-- The fixed text appended to a service error message in each
`raise Exception(...)` of the script. -/
def docPointer : String :=
  "\nFor more info on error messages, check: https://cloud.google.com/apis/design/errors"

/-- The trailing `if response.error.message: raise Exception(...)` shared by
the text, logo and face report functions. -/
def error_check (e : ErrorStatus) : ReportResult :=
  if e.message = "" then { output := [], raised := none }
  else { output := [], raised := some (PyError.exception (e.message ++ docPointer)) }

/-- `'({},{})'.format(vertex.x, vertex.y)` as used for text and face bounds. -/
def vertexStr (v : Vertex) : String :=
  "(" ++ toString v.x ++ "," ++ toString v.y ++ ")"

/-- `object_report`: header, separator, count, then one block per object. -/
def object_report (objects : List ObjectAnn) : ReportResult :=
  { output := ["\nObjects:", sepLine,
      "Number of objects found: " ++ toString objects.length] ++
      objects.flatMap (fun object_ =>
        ["\n" ++ object_.name ++ " (confidence: " ++ toString object_.score ++ ")",
         "Normalized bounding polygon vertices: "] ++
        object_.bounding_poly.normalized_vertices.map (fun vertex =>
          " - (" ++ toString vertex.x ++ ", " ++ toString vertex.y ++ ")")),
    raised := none }

/-- The two lines `text_report` prints for one text record. -/
def textLines (text : TextAnn) : List String :=
  ["\n\"" ++ text.description ++ "\"",
   "bounds: " ++ String.intercalate "," (text.bounding_poly.vertices.map vertexStr)]

/-- `text_report`: header, separator, per-record lines, then the error check. -/
def text_report (response : TextResponse) : ReportResult :=
  seqReports
    { output := ["\nTexts:", sepLine] ++ response.text_annotations.flatMap textLines,
      raised := none }
    (error_check response.error)

/-- `logo_report`: header, separator, one description line per logo, then the
error check. -/
def logo_report (response : LogoResponse) : ReportResult :=
  seqReports
    { output := ["\nLogos:", sepLine] ++
        response.logo_annotations.map (fun logo => logo.description),
      raised := none }
    (error_check response.error)

/-- The fixed six-value likelihood table of `face_report`
(from `google.cloud.vision.enums`). -/
def likelihood_name : List String :=
  ["UNKNOWN", "VERY_UNLIKELY", "UNLIKELY", "POSSIBLE", "LIKELY", "VERY_LIKELY"]

/-- The body of the per-face loop of `face_report`. Each of the three
likelihood lookups is positional indexing into `likelihood_name`; an
out-of-range ordinal raises IndexError at that point, after the lines of
the earlier lookups were already printed. -/
def face_block (face : Face) : ReportResult :=
  match likelihood_name.get? face.anger_likelihood with
  | none => { output := [], raised := some PyError.indexError }
  | some a =>
    match likelihood_name.get? face.joy_likelihood with
    | none => { output := ["anger: " ++ a], raised := some PyError.indexError }
    | some j =>
      match likelihood_name.get? face.surprise_likelihood with
      | none => { output := ["anger: " ++ a, "joy: " ++ j],
                  raised := some PyError.indexError }
      | some s =>
        { output := ["anger: " ++ a, "joy: " ++ j, "surprise: " ++ s,
            "face bounds: " ++ String.intercalate ","
              (face.bounding_poly.vertices.map vertexStr)],
          raised := none }

/-- `face_report`: header, separator, the per-face loop, then the error
check. -/
def face_report (response : FaceResponse) : ReportResult :=
  seqReports
    (response.face_annotations.foldl (fun acc face => seqReports acc (face_block face))
      { output := ["\nFaces:", sepLine], raised := none })
    (error_check response.error)

/-- Round a rational to the nearest integer, ties to even, as Python's
fixed-point float formatting does. -/
def roundHalfEven (q : Rat) : Int :=
  let f := ⌊q⌋
  if q - f < 1 / 2 then f
  else if q - f > 1 / 2 then f + 1
  else if f % 2 = 0 then f else f + 1

/-- The decimal digit character of `n % 10`. -/
def digitChar (n : Nat) : Char := Char.ofNat (48 + n % 10)

/-- A two-digit decimal rendering of `n < 100`. -/
def pad2 (n : Nat) : String := String.mk [digitChar (n / 10), digitChar n]

/-- Python's `'{:.2f}'.format(q)`: round to hundredths, print with exactly
two digits after the decimal point. -/
def format2f (q : Rat) : String :=
  let n : Int := roundHalfEven (q * 100)
  if n < 0 then
    "-" ++ toString ((-n) / 100) ++ "." ++ pad2 ((-n) % 100).toNat
  else
    toString (n / 100) ++ "." ++ pad2 (n % 100).toNat

/-- `labels_report`: header, separator, then per label
`f'{label.description} ({label.score*100.:.2f}%)'`. Never raises and never
reads the error field. -/
def labels_report (response : LabelsResponse) : ReportResult :=
  { output := ["\nLabels (and confidence score):", sepLine] ++
      response.label_annotations.map (fun label =>
        label.description ++ " (" ++ format2f (label.score * 100) ++ "%)"),
    raised := none }

/-- The pages-with-matching-images block of `web_report`: omitted when the
collection is empty (Python truthiness of a list). -/
def pagesBlock (a : WebDetection) : List String :=
  if a.pages_with_matching_images.isEmpty then []
  else
    ("\n" ++ toString a.pages_with_matching_images.length ++
      " Pages with matching images retrieved") ::
    a.pages_with_matching_images.map (fun page => "Url   : " ++ page.url)

/-- The full-matches block of `web_report`. -/
def fullMatchBlock (a : WebDetection) : List String :=
  if a.full_matching_images.isEmpty then []
  else
    ("\n" ++ toString a.full_matching_images.length ++ " Full Matches found: ") ::
    a.full_matching_images.map (fun image => "Url  : " ++ image.url)

/-- The partial-matches block of `web_report`. -/
def partMatchBlock (a : WebDetection) : List String :=
  if a.partial_matching_images.isEmpty then []
  else
    ("\n" ++ toString a.partial_matching_images.length ++ " Partial Matches found: ") ::
    a.partial_matching_images.map (fun image => "Url  : " ++ image.url)

/-- The web-entities block of `web_report`. -/
def entitiesBlock (a : WebDetection) : List String :=
  if a.web_entities.isEmpty then []
  else
    ("\n" ++ toString a.web_entities.length ++ " Web entities found: ") ::
    a.web_entities.flatMap (fun entity =>
      ["Score      : " ++ toString entity.score,
       "Description: " ++ entity.description])

/-- `web_report`: header, separator, then the four conditional blocks in
source order. Never raises. -/
def web_report (annotations : WebDetection) : ReportResult :=
  { output := ["\nWeb entities (and relevancy score):", sepLine] ++
      pagesBlock annotations ++ fullMatchBlock annotations ++
      partMatchBlock annotations ++ entitiesBlock annotations,
    raised := none }

/-- The image payload `annotate` builds: a URI reference for remote inputs,
raw bytes (`types.Image(content=...)`) for local files. -/
inductive Image where
  | uri (image_uri : String)
  | content (data : List Nat)
deriving Repr, DecidableEq

/-- The local filesystem: a path either opens to its byte contents or fails. -/
def FileSystem : Type := String → Option (List Nat)

/-- Python's `s.startswith(p)`: `p`'s characters are a prefix of `s`'s. -/
def strStartsWith (s p : String) : Bool := p.data.isPrefixOf s.data

/-- The input-classification and loading step of `annotate`: a path starting
with `http` or `gs:` becomes a URI image without touching the filesystem;
any other path is opened and read in full, `none` when the open fails. -/
def loadImage (fs : FileSystem) (path : String) : Option Image :=
  if strStartsWith path "http" || strStartsWith path "gs:" then some (Image.uri path)
  else
    match fs path with
    | some content => some (Image.content content)
    | none => none

/-- The remote service as `annotate` sees it: one response function per
annotation method of the client. -/
structure Client where
  label_detection : Image → LabelsResponse
  web_detection : Image → WebDetectionResponse
  face_detection : Image → FaceResponse
  logo_detection : Image → LogoResponse
  text_detection : Image → TextResponse
  object_localization : Image → ObjectLocalizationResponse

/-- The six remote annotation methods, one per category. -/
inductive ApiCall where
  | label_detection
  | web_detection
  | face_detection
  | logo_detection
  | text_detection
  | object_localization
deriving Repr, DecidableEq

/-- One observable event of a run: a remote call carrying its image payload,
or a printed line. -/
inductive Event where
  | call (c : ApiCall) (img : Image)
  | print (line : String)
deriving Repr, DecidableEq

/-- The trace of a run of `annotate`: its events in order, and the raise that
ended it early, if any. -/
structure RunResult where
  events : List Event
  raised : Option PyError
deriving Repr, DecidableEq

/-- Sequential composition of run fragments: if `a` raised, `b` never runs. -/
def seqRun (a b : RunResult) : RunResult :=
  match a.raised with
  | some _ => a
  | none => { events := a.events ++ b.events, raised := b.raised }

/-- One `response = client.method(image); method_report(response)` step of
`annotate`: the call event, then the report's prints and outcome. -/
def reportEvents (c : ApiCall) (img : Image) (r : ReportResult) : RunResult :=
  { events := Event.call c img :: r.output.map Event.print, raised := r.raised }

/-- The six call-and-report steps of `annotate` in source order, on the image
payload built once; each step is reached only if no earlier step raised. -/
def annotateLoaded (client : Client) (image : Image) : RunResult :=
  seqRun (reportEvents ApiCall.label_detection image
        (labels_report (client.label_detection image)))
      (seqRun (reportEvents ApiCall.web_detection image
          (web_report (client.web_detection image).web_detection))
        (seqRun (reportEvents ApiCall.face_detection image
            (face_report (client.face_detection image)))
          (seqRun (reportEvents ApiCall.logo_detection image
              (logo_report (client.logo_detection image)))
            (seqRun (reportEvents ApiCall.text_detection image
                (text_report (client.text_detection image)))
              (reportEvents ApiCall.object_localization image
                (object_report
                  (client.object_localization image).localized_object_annotations))))))

/-- `annotate`: classify and load the image, then run the six sequential
call-and-report steps; a failed local file open raises before any call. -/
def annotate (client : Client) (fs : FileSystem) (path : String) : RunResult :=
  match loadImage fs path with
  | none => { events := [], raised := some (PyError.ioError path) }
  | some image => annotateLoaded client image

/-- The remote calls of a trace, in order. -/
def callsOf (events : List Event) : List ApiCall :=
  events.filterMap (fun e =>
    match e with
    | Event.call c _ => some c
    | Event.print _ => none)

/-- All three likelihood ordinals of a face lie in the six named values. -/
abbrev inRangeFace (f : Face) : Prop :=
  f.anger_likelihood < 6 ∧ f.joy_likelihood < 6 ∧ f.surprise_likelihood < 6

/-- The four lines the per-face loop prints for one in-range face. -/
def faceLines (face : Face) : List String :=
  ["anger: " ++ likelihood_name.getD face.anger_likelihood "",
   "joy: " ++ likelihood_name.getD face.joy_likelihood "",
   "surprise: " ++ likelihood_name.getD face.surprise_likelihood "",
   "face bounds: " ++ String.intercalate ","
     (face.bounding_poly.vertices.map vertexStr)]

/-- A client whose six responses are all empty and error-free. -/
def trivialClient : Client where
  label_detection := fun _ => { label_annotations := [], error := { message := "" } }
  web_detection := fun _ =>
    { web_detection :=
        { pages_with_matching_images := [], full_matching_images := [],
          partial_matching_images := [], web_entities := [] } }
  face_detection := fun _ => { face_annotations := [], error := { message := "" } }
  logo_detection := fun _ => { logo_annotations := [], error := { message := "" } }
  text_detection := fun _ => { text_annotations := [], error := { message := "" } }
  object_localization := fun _ => { localized_object_annotations := [] }

/-- A filesystem with one readable image file. -/
def exampleFs : FileSystem := fun p => if p = "img.jpg" then some [0, 1, 2] else none

/-- The payload `annotate` builds for `img.jpg` under `exampleFs`. -/
def exampleImage : Image := Image.content [0, 1, 2]

/-- A face response with an out-of-range anger ordinal and an EMPTY error
message: `face_report` raises IndexError on it although the error-message
field is empty. -/
def outOfRangeQuietFace : FaceResponse :=
  { face_annotations :=
      [{ anger_likelihood := 6, joy_likelihood := 0, surprise_likelihood := 0,
         bounding_poly := { vertices := [] } }],
    error := { message := "" } }

/-- A face response with an out-of-range anger ordinal (7). -/
def indexErrorFixture : FaceResponse :=
  { face_annotations :=
      [{ anger_likelihood := 7, joy_likelihood := 0, surprise_likelihood := 0,
         bounding_poly := { vertices := [] } }],
    error := { message := "boom" } }

/-- A face response carrying a record with an out-of-range joy ordinal AND a
non-empty error message: the raise happens mid-section, not after it. -/
def errorFaceFixture : FaceResponse :=
  { face_annotations :=
      [{ anger_likelihood := 0, joy_likelihood := 9, surprise_likelihood := 0,
         bounding_poly := { vertices := [] } }],
    error := { message := "boom" } }

/-- A text response with one record and a non-empty error message. -/
def textErrFixture : TextResponse :=
  { text_annotations :=
      [{ description := "hi", bounding_poly := { vertices := [{ x := 1, y := 2 }] } }],
    error := { message := "quota" } }

/-- A logo response with one record and a non-empty error message. -/
def logoErrFixture : LogoResponse :=
  { logo_annotations := [{ description := "acme" }], error := { message := "quota2" } }

/-- A face response with one in-range record and a non-empty error message. -/
def faceErrFixture : FaceResponse :=
  { face_annotations :=
      [{ anger_likelihood := 1, joy_likelihood := 4, surprise_likelihood := 2,
         bounding_poly := { vertices := [] } }],
    error := { message := "quota3" } }

/-- A web detection with no pages-with-matching-images collection. -/
def webFixtureNoPages : WebDetection :=
  { pages_with_matching_images := [],
    full_matching_images := [{ url := "http://full" }],
    partial_matching_images := [],
    web_entities := [{ score := 1 / 2, description := "cat" }] }

/-- A web detection with two pages with matching images. -/
def webFixtureTwoPages : WebDetection :=
  { pages_with_matching_images := [{ url := "http://a" }, { url := "http://b" }],
    full_matching_images := [],
    partial_matching_images := [{ url := "http://part" }],
    web_entities := [] }

theorem get?_likelihood (n : Nat) (h : n < 6) :
    likelihood_name.get? n = some (likelihood_name.getD n "") := by
  interval_cases n <;> rfl

theorem face_block_inRange (face : Face) (h : inRangeFace face) :
    face_block face = { output := faceLines face, raised := none } := by
  obtain ⟨h1, h2, h3⟩ := h
  unfold face_block
  rw [get?_likelihood _ h1, get?_likelihood _ h2, get?_likelihood _ h3]
  rfl

theorem error_check_output (e : ErrorStatus) : (error_check e).output = [] := by
  unfold error_check; split <;> rfl

theorem error_check_raised (e : ErrorStatus) :
    (error_check e).raised =
      if e.message = "" then none
      else some (PyError.exception (e.message ++ docPointer)) := by
  unfold error_check; split <;> rfl

theorem seqReports_none_left (a b : ReportResult) (h : a.raised = none) :
    seqReports a b = { output := a.output ++ b.output, raised := b.raised } := by
  unfold seqReports; rw [h]

theorem faces_foldl_inRange (faces : List Face) (acc : ReportResult)
    (hacc : acc.raised = none) (h : ∀ f ∈ faces, inRangeFace f) :
    faces.foldl (fun a f => seqReports a (face_block f)) acc =
      { output := acc.output ++ faces.flatMap faceLines, raised := none } := by
  induction faces generalizing acc with
  | nil =>
    cases acc with
    | mk o r => simp at hacc; simp [hacc]
  | cons f fs ih =>
    have hf : inRangeFace f := h f (List.mem_cons_self f fs)
    have hfs : ∀ g ∈ fs, inRangeFace g := fun g hg => h g (List.mem_cons_of_mem f hg)
    simp only [List.foldl_cons]
    rw [face_block_inRange f hf, seqReports_none_left _ _ hacc,
      ih { output := acc.output ++ faceLines f, raised := none } rfl hfs]
    simp [List.flatMap_cons, List.append_assoc]

theorem face_report_eq (r : FaceResponse) (h : ∀ f ∈ r.face_annotations, inRangeFace f) :
    face_report r =
      { output := ["\nFaces:", sepLine] ++ r.face_annotations.flatMap faceLines,
        raised := (error_check r.error).raised } := by
  unfold face_report
  rw [faces_foldl_inRange _ _ rfl h, seqReports_none_left _ _ rfl, error_check_output]
  simp

theorem text_report_eq (r : TextResponse) :
    text_report r =
      { output := ["\nTexts:", sepLine] ++ r.text_annotations.flatMap textLines,
        raised := (error_check r.error).raised } := by
  unfold text_report
  rw [seqReports_none_left _ _ rfl, error_check_output]
  simp

theorem logo_report_eq (r : LogoResponse) :
    logo_report r =
      { output := ["\nLogos:", sepLine] ++
          r.logo_annotations.map (fun logo => logo.description),
        raised := (error_check r.error).raised } := by
  unfold logo_report
  rw [seqReports_none_left _ _ rfl, error_check_output]
  simp

theorem seqRun_raised_none (a b : RunResult) :
    (seqRun a b).raised = none ↔ a.raised = none ∧ b.raised = none := by
  unfold seqRun; cases h : a.raised <;> simp [h]

theorem seqRun_none_left (a b : RunResult) (h : a.raised = none) :
    seqRun a b = { events := a.events ++ b.events, raised := b.raised } := by
  unfold seqRun; rw [h]

theorem reportEvents_raised (c : ApiCall) (img : Image) (r : ReportResult) :
    (reportEvents c img r).raised = r.raised := rfl

theorem callsOf_append (l1 l2 : List Event) :
    callsOf (l1 ++ l2) = callsOf l1 ++ callsOf l2 := by
  unfold callsOf; exact List.filterMap_append l1 l2 _

theorem callsOf_reportEvents (c : ApiCall) (img : Image) (r : ReportResult) :
    callsOf (reportEvents c img r).events = [c] := by
  unfold callsOf reportEvents
  simp only [List.filterMap_cons]
  induction r.output with
  | nil => rfl
  | cons s rest ih => simp_all

theorem annotate_of_loaded (client : Client) (fs : FileSystem) (path : String)
    (image : Image) (h : loadImage fs path = some image) :
    annotate client fs path = annotateLoaded client image := by
  unfold annotate; rw [h]

theorem annotateLoaded_raised (client : Client) (image : Image)
    (h : (annotateLoaded client image).raised = none) :
    (face_report (client.face_detection image)).raised = none ∧
    (logo_report (client.logo_detection image)).raised = none ∧
    (text_report (client.text_detection image)).raised = none := by
  unfold annotateLoaded at h
  simp only [seqRun_raised_none, reportEvents_raised] at h
  exact ⟨h.2.2.1, h.2.2.2.1, h.2.2.2.2.1⟩

theorem annotateLoaded_events (client : Client) (image : Image)
    (h : (annotateLoaded client image).raised = none) :
    (annotateLoaded client image).events =
      (reportEvents ApiCall.label_detection image
        (labels_report (client.label_detection image))).events ++
      ((reportEvents ApiCall.web_detection image
        (web_report (client.web_detection image).web_detection)).events ++
      ((reportEvents ApiCall.face_detection image
        (face_report (client.face_detection image))).events ++
      ((reportEvents ApiCall.logo_detection image
        (logo_report (client.logo_detection image))).events ++
      ((reportEvents ApiCall.text_detection image
        (text_report (client.text_detection image))).events ++
      (reportEvents ApiCall.object_localization image
        (object_report
          (client.object_localization image).localized_object_annotations)).events)))) := by
  obtain ⟨h3, h4, h5⟩ := annotateLoaded_raised client image h
  have h3a : (reportEvents ApiCall.face_detection image
      (face_report (client.face_detection image))).raised = none := h3
  have h4a : (reportEvents ApiCall.logo_detection image
      (logo_report (client.logo_detection image))).raised = none := h4
  have h5a : (reportEvents ApiCall.text_detection image
      (text_report (client.text_detection image))).raised = none := h5
  have h1a : (reportEvents ApiCall.label_detection image
      (labels_report (client.label_detection image))).raised = none := rfl
  have h2a : (reportEvents ApiCall.web_detection image
      (web_report (client.web_detection image).web_detection)).raised = none := rfl
  unfold annotateLoaded
  rw [seqRun_none_left _ _ h5a, seqRun_none_left _ _ h4a, seqRun_none_left _ _ h3a,
    seqRun_none_left _ _ h2a, seqRun_none_left _ _ h1a]

theorem roundHalfEven_intCast (n : Int) : roundHalfEven ((n : Rat)) = n := by
  simp [roundHalfEven]

/-- C1 (counterexample): a face response whose only face carries the
out-of-range likelihood ordinal 6 while the error-message field is empty
makes `face_report` raise (an IndexError), so "the face report raises if and
only if the response's error-message field is non-empty" is false as stated
over every response. -/
theorem C1_counterexample :
    outOfRangeQuietFace.error.message = "" ∧
    (face_report outOfRangeQuietFace).raised = some PyError.indexError :=
  ⟨rfl, rfl⟩

/-- C1 (amended): for every text and logo response, and for every face
response whose likelihood ordinals all lie in 0..5, the report raises exactly
when the error-message field is non-empty, and the raised message is the
service message followed by the error-code documentation pointer; the labels,
web and object reports never raise, and the labels report never inspects the
error field (its result is invariant under changing it; the web and object
reports receive values that carry no error field at all). -/
theorem C1_error_policy (tr : TextResponse) (lr : LogoResponse) (fr : FaceResponse)
    (lresp : LabelsResponse) (e : ErrorStatus) (wa : WebDetection)
    (objs : List ObjectAnn)
    (hfr : ∀ f ∈ fr.face_annotations, inRangeFace f) :
    ((text_report tr).raised = if tr.error.message = "" then none
      else some (PyError.exception (tr.error.message ++ docPointer))) ∧
    ((logo_report lr).raised = if lr.error.message = "" then none
      else some (PyError.exception (lr.error.message ++ docPointer))) ∧
    ((face_report fr).raised = if fr.error.message = "" then none
      else some (PyError.exception (fr.error.message ++ docPointer))) ∧
    (labels_report lresp).raised = none ∧
    (web_report wa).raised = none ∧
    (object_report objs).raised = none ∧
    labels_report { lresp with error := e } = labels_report lresp := by
  refine ⟨?_, ?_, ?_, rfl, rfl, rfl, rfl⟩
  · rw [text_report_eq]
    exact error_check_raised tr.error
  · rw [logo_report_eq]
    exact error_check_raised lr.error
  · rw [face_report_eq fr hfr]
    exact error_check_raised fr.error

/-- C1 (witness): the amended statement applied at concrete responses; a text
response with error message "boom" raises the documented exception. -/
theorem C1_error_policy_witness :
    (text_report { text_annotations := [], error := { message := "boom" } }).raised =
      (if ("boom" : String) = "" then none
       else some (PyError.exception ("boom" ++ docPointer))) :=
  (C1_error_policy { text_annotations := [], error := { message := "boom" } }
    { logo_annotations := [], error := { message := "" } }
    { face_annotations := [], error := { message := "" } }
    { label_annotations := [], error := { message := "" } } { message := "x" }
    webFixtureNoPages [] (by simp)).1

/-- C2: on a run over a readable local image path that completes without a
raise, `annotate` performs exactly the six distinct remote calls, in the
fixed order labels, web, faces, logos, text, objects. -/
theorem C2_six_calls (client : Client) (fs : FileSystem) (path : String)
    (content : List Nat)
    (h1 : strStartsWith path "http" = false) (h2 : strStartsWith path "gs:" = false)
    (h3 : fs path = some content)
    (h4 : (annotate client fs path).raised = none) :
    callsOf (annotate client fs path).events =
      [ApiCall.label_detection, ApiCall.web_detection, ApiCall.face_detection,
       ApiCall.logo_detection, ApiCall.text_detection, ApiCall.object_localization] ∧
    List.Nodup
      [ApiCall.label_detection, ApiCall.web_detection, ApiCall.face_detection,
       ApiCall.logo_detection, ApiCall.text_detection, ApiCall.object_localization] := by
  have hload : loadImage fs path = some (Image.content content) := by
    unfold loadImage
    rw [h1, h2]
    simp [h3]
  rw [annotate_of_loaded client fs path _ hload] at h4 ⊢
  refine ⟨?_, by decide⟩
  rw [annotateLoaded_events client _ h4]
  simp only [callsOf_append, callsOf_reportEvents]
  rfl

/-- C2 (witness): with the all-empty client and the one-file filesystem, the
run on `img.jpg` makes exactly the six calls in order. -/
theorem C2_six_calls_witness :
    callsOf (annotate trivialClient exampleFs "img.jpg").events =
      [ApiCall.label_detection, ApiCall.web_detection, ApiCall.face_detection,
       ApiCall.logo_detection, ApiCall.text_detection, ApiCall.object_localization] :=
  (C2_six_calls trivialClient exampleFs "img.jpg" [0, 1, 2] (by decide) (by decide)
    (by decide) rfl).1

/-- C3: a string starting with `http` or `gs:` is treated as a remote
reference — a URI image is built and the filesystem is never consulted (the
result is the same under any two filesystems); any other string is opened as
a local path and its full binary contents become the payload, and loading
fails when the file cannot be opened. -/
theorem C3_input_classification (fs fs2 : FileSystem) (path : String) :
    ((strStartsWith path "http" || strStartsWith path "gs:") = true →
      loadImage fs path = some (Image.uri path) ∧
      loadImage fs path = loadImage fs2 path) ∧
    ((strStartsWith path "http" || strStartsWith path "gs:") = false →
      (∀ content, fs path = some content →
        loadImage fs path = some (Image.content content)) ∧
      (fs path = none → loadImage fs path = none)) := by
  constructor
  · intro h
    refine ⟨?_, ?_⟩ <;> simp [loadImage, h]
  · intro h
    refine ⟨fun content hc => ?_, fun hc => ?_⟩ <;> simp [loadImage, h, hc]

/-- C3 (witness): a `gs:` URI is taken as remote, `img.jpg` is read from the
filesystem, and a path no filesystem can open fails. -/
theorem C3_input_classification_witness :
    loadImage exampleFs "gs://bucket/pic" = some (Image.uri "gs://bucket/pic") ∧
    loadImage exampleFs "img.jpg" = some (Image.content [0, 1, 2]) ∧
    loadImage (fun _ => none) "img.jpg" = none :=
  ⟨((C3_input_classification exampleFs exampleFs "gs://bucket/pic").1 (by decide)).1,
   ((C3_input_classification exampleFs exampleFs "img.jpg").2 (by decide)).1
     [0, 1, 2] (by decide),
   ((C3_input_classification (fun _ => none) exampleFs "img.jpg").2 (by decide)).2 rfl⟩

/-- C4: control flow is strictly sequential — the image is loaded once, and
on a raise-free run the trace is the six calls, each carrying that same
image payload and each followed immediately by its own report's prints
before the next call. -/
theorem C4_sequential_flow (client : Client) (fs : FileSystem) (path : String)
    (image : Image) (hload : loadImage fs path = some image)
    (h : (annotate client fs path).raised = none) :
    (annotate client fs path).events =
      Event.call ApiCall.label_detection image ::
        ((labels_report (client.label_detection image)).output.map Event.print ++
      (Event.call ApiCall.web_detection image ::
        ((web_report (client.web_detection image).web_detection).output.map
            Event.print ++
      (Event.call ApiCall.face_detection image ::
        ((face_report (client.face_detection image)).output.map Event.print ++
      (Event.call ApiCall.logo_detection image ::
        ((logo_report (client.logo_detection image)).output.map Event.print ++
      (Event.call ApiCall.text_detection image ::
        ((text_report (client.text_detection image)).output.map Event.print ++
      (Event.call ApiCall.object_localization image ::
        (object_report
            (client.object_localization image).localized_object_annotations).output.map
          Event.print)))))))))) := by
  rw [annotate_of_loaded client fs path image hload] at h ⊢
  rw [annotateLoaded_events client image h]
  rfl

/-- C4 (witness): the sequential trace on the concrete fixture run. -/
theorem C4_sequential_flow_witness :
    (annotate trivialClient exampleFs "img.jpg").events =
      Event.call ApiCall.label_detection exampleImage ::
        ((labels_report (trivialClient.label_detection exampleImage)).output.map
            Event.print ++
      (Event.call ApiCall.web_detection exampleImage ::
        ((web_report
            (trivialClient.web_detection exampleImage).web_detection).output.map
            Event.print ++
      (Event.call ApiCall.face_detection exampleImage ::
        ((face_report (trivialClient.face_detection exampleImage)).output.map
            Event.print ++
      (Event.call ApiCall.logo_detection exampleImage ::
        ((logo_report (trivialClient.logo_detection exampleImage)).output.map
            Event.print ++
      (Event.call ApiCall.text_detection exampleImage ::
        ((text_report (trivialClient.text_detection exampleImage)).output.map
            Event.print ++
      (Event.call ApiCall.object_localization exampleImage ::
        (object_report
            (trivialClient.object_localization
              exampleImage).localized_object_annotations).output.map
          Event.print)))))))))) :=
  C4_sequential_flow trivialClient exampleFs "img.jpg" exampleImage rfl rfl

/-- C5: the per-face loop maps the anger, joy and surprise ordinals through
the fixed six-value table UNKNOWN, VERY_UNLIKELY, UNLIKELY, POSSIBLE, LIKELY,
VERY_LIKELY; ordinal 3 renders as POSSIBLE and ordinal 0 as UNKNOWN. -/
theorem C5_likelihood_mapping (face : Face) (h : inRangeFace face) :
    (face_block face).output =
      ["anger: " ++ likelihood_name.getD face.anger_likelihood "",
       "joy: " ++ likelihood_name.getD face.joy_likelihood "",
       "surprise: " ++ likelihood_name.getD face.surprise_likelihood "",
       "face bounds: " ++ String.intercalate ","
         (face.bounding_poly.vertices.map vertexStr)] ∧
    likelihood_name =
      ["UNKNOWN", "VERY_UNLIKELY", "UNLIKELY", "POSSIBLE", "LIKELY",
       "VERY_LIKELY"] ∧
    likelihood_name.getD 3 "" = "POSSIBLE" ∧
    likelihood_name.getD 0 "" = "UNKNOWN" := by
  refine ⟨?_, rfl, rfl, rfl⟩
  rw [face_block_inRange face h]
  rfl

/-- C5 (witness): a face with ordinals 3, 0 and 5 renders POSSIBLE, UNKNOWN
and VERY_LIKELY. -/
theorem C5_likelihood_mapping_witness :
    (face_block { anger_likelihood := 3, joy_likelihood := 0,
                  surprise_likelihood := 5,
                  bounding_poly := { vertices := [] } }).output =
      ["anger: " ++ likelihood_name.getD 3 "",
       "joy: " ++ likelihood_name.getD 0 "",
       "surprise: " ++ likelihood_name.getD 5 "",
       "face bounds: " ++ String.intercalate "," (List.map vertexStr [])] :=
  (C5_likelihood_mapping
    { anger_likelihood := 3, joy_likelihood := 0, surprise_likelihood := 5,
      bounding_poly := { vertices := [] } } (by decide)).1

/-- C6: the labels report prints, per label, the description followed by the
score as a percentage with exactly two decimal places; a score of 0.8765
renders as 87.65%. -/
theorem C6_label_percentage (response : LabelsResponse) :
    (labels_report response).output =
      ["\nLabels (and confidence score):", sepLine] ++
        response.label_annotations.map (fun label =>
          label.description ++ " (" ++ format2f (label.score * 100) ++ "%)") ∧
    (∀ q : Rat, ∃ s : String, ∃ m : Nat,
        m < 100 ∧ format2f q = s ++ "." ++ pad2 m ∧ (pad2 m).length = 2) ∧
    format2f ((8765 / 10000 : Rat) * 100) = "87.65" := by
  refine ⟨rfl, ?_, ?_⟩
  · intro q
    unfold format2f
    by_cases hn : roundHalfEven (q * 100) < 0
    · refine ⟨"-" ++ toString ((-(roundHalfEven (q * 100))) / 100),
        ((-(roundHalfEven (q * 100))) % 100).toNat, ?_, ?_, rfl⟩
      · have ha := Int.emod_lt_of_pos (-(roundHalfEven (q * 100)))
          (show (0 : Int) < 100 by norm_num)
        have hb := Int.emod_nonneg (-(roundHalfEven (q * 100)))
          (show (100 : Int) ≠ 0 by norm_num)
        omega
      · simp [hn]
    · refine ⟨toString ((roundHalfEven (q * 100)) / 100),
        ((roundHalfEven (q * 100)) % 100).toNat, ?_, ?_, rfl⟩
      · have ha := Int.emod_lt_of_pos (roundHalfEven (q * 100))
          (show (0 : Int) < 100 by norm_num)
        have hb := Int.emod_nonneg (roundHalfEven (q * 100))
          (show (100 : Int) ≠ 0 by norm_num)
        omega
      · simp [hn]
  · have hq : ((8765 / 10000 : Rat) * 100) * 100 = ((8765 : Int) : Rat) := by
      norm_num
    unfold format2f
    rw [hq, roundHalfEven_intCast]
    norm_num
    decide

/-- C7: the web report omits the pages-with-matching-images block when that
collection is empty, and otherwise prints it with the collection's length as
the count followed by one URL line per page. -/
theorem C7_pages_block (a : WebDetection) :
    (a.pages_with_matching_images = [] →
      (web_report a).output =
        ["\nWeb entities (and relevancy score):", sepLine] ++
          (fullMatchBlock a ++ partMatchBlock a ++ entitiesBlock a)) ∧
    (a.pages_with_matching_images ≠ [] →
      (web_report a).output =
        ["\nWeb entities (and relevancy score):", sepLine] ++
          (("\n" ++ toString a.pages_with_matching_images.length ++
              " Pages with matching images retrieved") ::
            a.pages_with_matching_images.map (fun page => "Url   : " ++ page.url)) ++
          (fullMatchBlock a ++ partMatchBlock a ++ entitiesBlock a)) := by
  constructor <;> intro h <;>
    simp [web_report, pagesBlock, h, List.isEmpty_iff, List.append_assoc]

/-- C7 (witness): the block is absent on a fixture with no pages and present
with count 2 on a fixture with two pages. -/
theorem C7_pages_block_witness :
    (web_report webFixtureNoPages).output =
      ["\nWeb entities (and relevancy score):", sepLine] ++
        (fullMatchBlock webFixtureNoPages ++ partMatchBlock webFixtureNoPages ++
          entitiesBlock webFixtureNoPages) ∧
    (web_report webFixtureTwoPages).output =
      ["\nWeb entities (and relevancy score):", sepLine] ++
        (("\n" ++ toString webFixtureTwoPages.pages_with_matching_images.length ++
            " Pages with matching images retrieved") ::
          webFixtureTwoPages.pages_with_matching_images.map
            (fun page => "Url   : " ++ page.url)) ++
        (fullMatchBlock webFixtureTwoPages ++ partMatchBlock webFixtureTwoPages ++
          entitiesBlock webFixtureTwoPages) :=
  ⟨(C7_pages_block webFixtureNoPages).1 rfl,
   (C7_pages_block webFixtureTwoPages).2 (by decide)⟩

/-- C8: each of the six report functions is a pure function of its response
value, so two invocations on the same fixed response produce identical
results, output text included. -/
theorem C8_deterministic (r1 : LabelsResponse) (a2 : WebDetection)
    (r3 : FaceResponse) (r4 : LogoResponse) (r5 : TextResponse)
    (objs : List ObjectAnn) :
    labels_report r1 = labels_report r1 ∧ web_report a2 = web_report a2 ∧
    face_report r3 = face_report r3 ∧ logo_report r4 = logo_report r4 ∧
    text_report r5 = text_report r5 ∧ object_report objs = object_report objs :=
  ⟨rfl, rfl, rfl, rfl, rfl, rfl⟩

/-- C9: the likelihood rendering is positional indexing into a six-element
table: with every ordinal in 0..5 `face_report` never raises an out-of-range
error, and on a face whose ordinal is 7 it raises exactly that unhandled
IndexError. -/
theorem C9_positional_indexing (r : FaceResponse)
    (h : ∀ f ∈ r.face_annotations, inRangeFace f) :
    (face_report r).raised ≠ some PyError.indexError ∧
    (face_report indexErrorFixture).raised = some PyError.indexError := by
  refine ⟨?_, rfl⟩
  rw [face_report_eq r h, error_check_raised]
  split <;> simp

/-- C9 (witness): the in-range half applied at an empty face response. -/
theorem C9_positional_indexing_witness :
    (face_report { face_annotations := [], error := { message := "" } }).raised ≠
      some PyError.indexError :=
  (C9_positional_indexing { face_annotations := [], error := { message := "" } }
    (by simp)).1

/-- C10 (counterexample): a face response carrying a record (with joy ordinal
9) and the non-empty error message "boom" does NOT print its full section and
does NOT raise the error-message exception: the per-face loop raises
IndexError after only the header, separator and anger line. -/
theorem C10_counterexample :
    errorFaceFixture.error.message ≠ "" ∧
    errorFaceFixture.face_annotations ≠ [] ∧
    (face_report errorFaceFixture).output = ["\nFaces:", sepLine, "anger: UNKNOWN"] ∧
    (face_report errorFaceFixture).raised = some PyError.indexError ∧
    some PyError.indexError ≠
      some (PyError.exception (errorFaceFixture.error.message ++ docPointer)) :=
  ⟨by decide, by decide, rfl, rfl, by decide⟩

/-- C10 (amended): for every text or logo response with a non-empty error
message, and every such face response whose likelihood ordinals are all in
0..5, the report function produces its complete section (header, separator
and every record's lines) as output and raises the error-message exception
only after all of it. -/
theorem C10_section_before_raise (tr : TextResponse) (lr : LogoResponse)
    (fr : FaceResponse) (htr : tr.error.message ≠ "") (hlr : lr.error.message ≠ "")
    (hfr : fr.error.message ≠ "")
    (hin : ∀ f ∈ fr.face_annotations, inRangeFace f) :
    text_report tr =
      { output := ["\nTexts:", sepLine] ++ tr.text_annotations.flatMap textLines,
        raised := some (PyError.exception (tr.error.message ++ docPointer)) } ∧
    logo_report lr =
      { output := ["\nLogos:", sepLine] ++
          lr.logo_annotations.map (fun logo => logo.description),
        raised := some (PyError.exception (lr.error.message ++ docPointer)) } ∧
    face_report fr =
      { output := ["\nFaces:", sepLine] ++ fr.face_annotations.flatMap faceLines,
        raised := some (PyError.exception (fr.error.message ++ docPointer)) } := by
  refine ⟨?_, ?_, ?_⟩
  · rw [text_report_eq, error_check_raised, if_neg htr]
  · rw [logo_report_eq, error_check_raised, if_neg hlr]
  · rw [face_report_eq fr hin, error_check_raised, if_neg hfr]

/-- C10 (witness): the amended statement at concrete error-carrying
fixtures. -/
theorem C10_section_before_raise_witness :
    text_report textErrFixture =
      { output := ["\nTexts:", sepLine] ++
          textErrFixture.text_annotations.flatMap textLines,
        raised := some (PyError.exception
          (textErrFixture.error.message ++ docPointer)) } ∧
    logo_report logoErrFixture =
      { output := ["\nLogos:", sepLine] ++
          logoErrFixture.logo_annotations.map (fun logo => logo.description),
        raised := some (PyError.exception
          (logoErrFixture.error.message ++ docPointer)) } ∧
    face_report faceErrFixture =
      { output := ["\nFaces:", sepLine] ++
          faceErrFixture.face_annotations.flatMap faceLines,
        raised := some (PyError.exception
          (faceErrFixture.error.message ++ docPointer)) } :=
  C10_section_before_raise textErrFixture logoErrFixture faceErrFixture
    (by decide) (by decide) (by decide) (by decide)

end VisionAPI
